import Mathlib

/-!
Verification development for the metered conversation orchestrator of the
ai-vault-keeper backend.

The definitions below are a shallow embedding of the TypeScript source:

* `src/chat/chatHandlers.ts` — the orchestrator pipeline `handleStreamData`
  and its accounting helpers (`isFirstParticipantMessageInConversation`,
  `incrementChallengeParticipants`, `handleUserMessage`,
  `getParticipantBalance`, `decrementParticipantBalance`,
  `incrementChallengeMessageCount`, `saveMessageToDb`,
  `getLatestUserMessage`, `writeTransformedChunk`,
  `getVaultPasswordFromDb`, `getChallengeInfoFromDb`).
* `src/services/blockchainService.ts` — the bounded LRU contract-binding
  cache (`evictOldestContract`, `getContractForChallenge`).

The DynamoDB store is modelled as an explicit `Store` value threaded through
the operations; external collaborators (DynamoDB faults, the two LLM agents,
the Slack webhook) are modelled by an `Env` oracle fixed per request.  Each
`try/catch` in the source that swallows a collaborator fault is modelled by
the corresponding fault flag of `Env` selecting the catch branch.
-/

namespace VaultKeeper

/-- Message author role, the `'user' | 'assistant'` union of the source. -/
inductive Role where
  | user
  | assistant
deriving DecidableEq, Repr

/-- One inbound chat turn, the `ChatMessage` type of `chatHandlers.ts`. -/
structure ChatMessage where
  role : Role
  content : String
deriving DecidableEq, Repr

/-- One row of the `Messages` table, as written by `saveMessageToDb`
(`created_date` is not modelled; no claim mentions it). -/
structure MessageRow where
  conversation_id : String
  message_id : String
  challenge_id : String
  participant_id : String
  role : Role
  content : String
deriving DecidableEq, Repr

/-- The DynamoDB state visible to the chat pipeline: the `Messages`,
`Participants`, `Challenges` and `VaultPasswords` tables.  The two counters
of a challenge row are modelled as total functions (DynamoDB `ADD` treats a
missing attribute as 0 and upserts).  `balances` is `none` when the
participant row or its `balance` attribute is missing.  `challengeLevels`
is the `level` attribute of the challenge row (`none` when the row is
missing).  `nextMsgId` models the fresh-uuid source for `message_id`. -/
structure Store where
  messages : List MessageRow
  participantsCount : String → Int
  messagesCount : String → Int
  balances : String → String → Option Int
  vaultPasswords : String → Option String
  challengeLevels : String → Option String
  nextMsgId : Nat

/-- Per-request oracle for external collaborators.  A `...Fault` flag set to
`true` makes the corresponding DynamoDB call throw, which the source catches
as documented on each operation.  `slackWebhookUrl` models
`process.env.SLACK_WEBHOOK_URL` (`""` = unset, matching JS truthiness);
`slackFails` makes `notifySlackChannel` throw with message `slackErrMsg`.
`agent1Text` is the primary agent's `result.text`; `agent2Frags` is the
ordered fragment sequence of the secondary agent's `textStream`. -/
structure Env where
  challengeInfoFault : Bool
  balanceReadFault : Bool
  firstMsgQueryFault : Bool
  vaultPasswordFault : Bool
  saveMessageFault : Bool
  incParticipantsFault : Bool
  incMessagesFault : Bool
  decBalanceFault : Bool
  slackWebhookUrl : String
  slackFails : Bool
  slackErrMsg : String
  agent1Text : String
  agent2Frags : List String

/-- The request shape consumed by `handleStreamData`: `req.body.messages`
(`none` models a missing body or a non-array `messages` field),
`req.params.challenge_id`, `req.params.conversation_id` and
`req.query.participant_id` (`""` models a missing/empty value, matching the
JS truthiness checks of the source). -/
structure Request where
  messages : Option (List ChatMessage)
  challenge_id : String
  conversation_id : String
  participant_id : String

/-- The HTTP-visible outcome: a `res.status(n).json({error})` reply or a
completed `text/plain` stream. -/
inductive Response where
  | error (status : Nat) (msg : String)
  | streamed
deriving DecidableEq, Repr

/-- Externally observable actions of one request, in order: the primary /
secondary generation calls, each `res.write` of a framed fragment, and the
Slack webhook post. -/
inductive Event where
  | agent1Call
  | agent2Call
  | streamWrite (s : String)
  | slackNotify (msg : String)
deriving DecidableEq, Repr

/-- Result of running `handleStreamData`: the response, the final store and
the ordered event trace. -/
structure Outcome where
  response : Response
  store : Store
  events : List Event

/-- The JS `conversation_id || 'unknown_convo'` defaulting used at each call
site of the source. -/
def defaultConv (conversation_id : String) : String :=
  if conversation_id = "" then "unknown_convo" else conversation_id

/-- `getLatestUserMessage` of `chatHandlers.ts`: scan the array from the end
for the first message with role `user`. -/
def getLatestUserMessage (messages : List ChatMessage) : Option String :=
  match messages.reverse.find? (fun m => m.role == Role.user) with
  | some m => some m.content
  | none => none

/-- `isFirstParticipantMessageInConversation`: query the `Messages` GSI by
`conversation_id` with `Limit: 2` and report `Count === 0`; any store error
is caught and reported as `false`. -/
def isFirstParticipantMessageInConversation (env : Env) (s : Store)
    (conversation_id : String) : Bool :=
  if env.firstMsgQueryFault then
    false
  else
    min 2 (s.messages.filter (fun m => m.conversation_id == conversation_id)).length = 0

/-- `incrementChallengeParticipants`: DynamoDB `ADD participants_count 1`;
errors are caught and swallowed. -/
def incrementChallengeParticipants (env : Env) (challenge_id : String) (s : Store) : Store :=
  if env.incParticipantsFault then
    s
  else
    { s with participantsCount :=
        fun c => if c = challenge_id then s.participantsCount c + 1 else s.participantsCount c }

/-- `incrementChallengeMessageCount`: DynamoDB `ADD messages_count 1`;
errors are caught and swallowed (the returned count is used only for logs). -/
def incrementChallengeMessageCount (env : Env) (challenge_id : String) (s : Store) : Store :=
  if env.incMessagesFault then
    s
  else
    { s with messagesCount :=
        fun c => if c = challenge_id then s.messagesCount c + 1 else s.messagesCount c }

/-- `getParticipantBalance`: point read of the `Participants` row; a missing
row or missing `balance` attribute gives `null`, and a thrown store error is
caught and also gives `null`. -/
def getParticipantBalance (env : Env) (s : Store)
    (challenge_id participant_id : String) : Option Int :=
  if env.balanceReadFault then none else s.balances challenge_id participant_id

/-- `decrementParticipantBalance`: DynamoDB `ADD balance -1` (upsert, missing
attribute treated as 0), returning the post-decrement value; a thrown error
is caught and gives `null` with no write. -/
def decrementParticipantBalance (env : Env) (challenge_id participant_id : String)
    (s : Store) : Option Int × Store :=
  if env.decBalanceFault then
    (none, s)
  else
    let newBal := (s.balances challenge_id participant_id).getD 0 - 1
    (some newBal,
      { s with balances := fun c p =>
          if c = challenge_id ∧ p = participant_id then some newBal
          else s.balances c p })

/-- `saveMessageToDb`: put one immutable row with a fresh `message_id`;
a thrown error is caught and swallowed (no write). -/
def saveMessageToDb (env : Env) (conversation_id challenge_id participant_id : String)
    (role : Role) (content : String) (s : Store) : Store :=
  if env.saveMessageFault then
    s
  else
    { s with
      messages := s.messages ++
        [{ conversation_id := conversation_id
           message_id := toString s.nextMsgId
           challenge_id := challenge_id
           participant_id := participant_id
           role := role
           content := content }]
      nextMsgId := s.nextMsgId + 1 }

/-- `handleUserMessage`: first-message check with conditional participant
increment, then save the user row, bump the message counter and decrement
the balance — four independent best-effort sub-steps. -/
def handleUserMessage (env : Env) (challenge_id conversation_id participant_id : String)
    (userMessage : String) (s : Store) : Store :=
  let isFirst := isFirstParticipantMessageInConversation env s conversation_id
  let s1 := if isFirst then incrementChallengeParticipants env challenge_id s else s
  let s2 := saveMessageToDb env (defaultConv conversation_id) challenge_id participant_id
    Role.user userMessage s1
  let s3 := incrementChallengeMessageCount env challenge_id s2
  (decrementParticipantBalance env challenge_id participant_id s3).2

/-- `getVaultPasswordFromDb`: point read of `VaultPasswords`; a missing row,
a falsy `password` attribute, or a thrown error all give `""`. -/
def getVaultPasswordFromDb (env : Env) (s : Store) (challenge_id : String) : String :=
  if env.vaultPasswordFault then
    ""
  else
    match s.vaultPasswords challenge_id with
    | some p => p
    | none => ""

/-- `getChallengeInfoFromDb` projected to the `level` attribute the handler
reads; a missing row or a thrown error gives `none`. -/
def getChallengeInfoFromDb (env : Env) (s : Store) (challenge_id : String) : Option String :=
  if env.challengeInfoFault then none else s.challengeLevels challenge_id

/-- Replace every occurrence of the single character `c` in `s` by `r`: the
semantics of the JS global single-character regex replaces
`.replace(/\n/g, ...)` and `.replace(/"/g, ...)` used by
`writeTransformedChunk`. -/
def replaceChar (s : String) (c : Char) (r : String) : String :=
  String.join (s.toList.map (fun ch => if ch = c then r else String.mk [ch]))

/-- The escaping pass of `writeTransformedChunk`: newlines first, then
double quotes (backslashes are not escaped). -/
def escapeChunk (raw : String) : String :=
  replaceChar (replaceChar raw '\n' "\\n") '"' "\\\""

/-- `writeTransformedChunk`: the full framed line written to the response
for one fragment. -/
def writeTransformedChunk (raw : String) : String :=
  "0:\"" ++ escapeChunk raw ++ "\"\n"

/-- Char-list test: does `pat` start the list `l`? -/
def matchesFront : List Char → List Char → Bool
  | [], _ => true
  | _ :: _, [] => false
  | a :: pat, b :: l => a == b && matchesFront pat l

/-- Char-list test: does `pat` occur contiguously anywhere in `l`? -/
def hasSubseq (pat : List Char) : List Char → Bool
  | [] => matchesFront pat []
  | c :: l => matchesFront pat (c :: l) || hasSubseq pat l

/-- The JS `haystack.includes(needle)` substring test used by the crack
check. -/
def strContains (haystack needle : String) : Bool :=
  hasSubseq needle.toList haystack.toList

/-- The JS `String.prototype.trim()` applied to the primary agent's text:
drop whitespace from both ends. -/
def jsTrim (s : String) : String :=
  String.mk (((s.toList.dropWhile Char.isWhitespace).reverse.dropWhile
    Char.isWhitespace).reverse)

/-- The `VAULT_CRACKED_VIDEO_COMPONENT` constant of `chatHandlers.ts`. -/
def VAULT_CRACKED_VIDEO_COMPONENT : String :=
  "<div data-video=\"https://dev-medias-bucket.s3.us-east-1.amazonaws.com/unlocked_1.mp4\" width=\"854\" height=\"480\" </div>"

/-- The `finalRewardMsg` built on the cracked path. -/
def finalRewardMsg : String :=
  "🎉 OMG! You cracked me and the vault is one step away now!\n\n" ++
    VAULT_CRACKED_VIDEO_COMPONENT

/-- The primary agent's returned text, `result.text.trim()` of
`fetchAgent1Response` (the sampled completion itself is the `Env` oracle). -/
def fetchAgent1Text (env : Env) : String :=
  jsTrim env.agent1Text

/-- The Slack message posted on the cracked path. -/
def slackCrackMsg (conversation_id : String) : String :=
  "The vault has been cracked in conversation " ++ conversation_id ++ "!"

/-- `handleStreamData` of `chatHandlers.ts`: the full orchestrator pipeline
for one request, returning the response, the final store and the ordered
trace of external actions.  Branching follows the source line by line:
payload/path/query validation, challenge-info fetch, latest-user-message
scan, balance gate, user-message accounting, vault-password fetch, crack
check (with the awaited Slack notification, whose thrown failure is caught
only by the top-level handler and turned into a 500), then the
EASY/HARD/unknown generation paths. -/
def handleStreamData (env : Env) (req : Request) (s0 : Store) : Outcome :=
  match req.messages with
  | none => ⟨Response.error 400 "Invalid payload format.", s0, []⟩
  | some messages =>
    if req.challenge_id = "" then
      ⟨Response.error 400 "Missing challenge_id in request path", s0, []⟩
    else if req.participant_id = "" then
      ⟨Response.error 400 "Missing participant_id in query", s0, []⟩
    else
      match getChallengeInfoFromDb env s0 req.challenge_id with
      | none => ⟨Response.error 500 "No challenge info found or DynamoDB error.", s0, []⟩
      | some challengeLevel =>
        match getLatestUserMessage messages with
        | none => ⟨Response.error 400 "No user message found.", s0, []⟩
        | some latestUserMessage =>
          match getParticipantBalance env s0 req.challenge_id req.participant_id with
          | none => ⟨Response.error 400 "Insufficient balance to send a message.", s0, []⟩
          | some balance =>
            if balance ≤ 0 then
              ⟨Response.error 400 "Insufficient balance to send a message.", s0, []⟩
            else
              let s1 := handleUserMessage env req.challenge_id
                (defaultConv req.conversation_id) req.participant_id latestUserMessage s0
              let dbVaultPassword := getVaultPasswordFromDb env s1 req.challenge_id
              if dbVaultPassword = "" then
                ⟨Response.error 500 "Vault password not configured or not found in DB.", s1, []⟩
              else if strContains latestUserMessage dbVaultPassword then
                if env.slackWebhookUrl ≠ "" ∧ req.conversation_id ≠ "" then
                  if env.slackFails then
                    ⟨Response.error 500 ("Slack notification error: " ++ env.slackErrMsg),
                      s1, [Event.slackNotify (slackCrackMsg req.conversation_id)]⟩
                  else
                    ⟨Response.streamed,
                      saveMessageToDb env (defaultConv req.conversation_id) req.challenge_id
                        req.participant_id Role.assistant finalRewardMsg s1,
                      [Event.slackNotify (slackCrackMsg req.conversation_id),
                        Event.streamWrite (writeTransformedChunk finalRewardMsg)]⟩
                else
                  ⟨Response.streamed,
                    saveMessageToDb env (defaultConv req.conversation_id) req.challenge_id
                      req.participant_id Role.assistant finalRewardMsg s1,
                    [Event.streamWrite (writeTransformedChunk finalRewardMsg)]⟩
              else if challengeLevel = "EASY" then
                let text := fetchAgent1Text env
                ⟨Response.streamed,
                  saveMessageToDb env (defaultConv req.conversation_id) req.challenge_id
                    req.participant_id Role.assistant text s1,
                  [Event.agent1Call, Event.streamWrite (writeTransformedChunk text)]⟩
              else if challengeLevel = "HARD" then
                let full := String.join env.agent2Frags
                ⟨Response.streamed,
                  saveMessageToDb env (defaultConv req.conversation_id) req.challenge_id
                    req.participant_id Role.assistant full s1,
                  [Event.agent1Call, Event.agent2Call] ++
                    env.agent2Frags.map (fun f => Event.streamWrite (writeTransformedChunk f))⟩
              else
                ⟨Response.error 400 ("Unknown challenge level: " ++ challengeLevel), s1, []⟩

/-! ### Contract-binding cache (`src/services/blockchainService.ts`) -/

/-- An `ethers.Contract` binding, reduced to the data it is constructed
from: the validated address and the (parsed) ABI string from the
`ChallengeSmartContracts` row. -/
structure Contract where
  address : String
  abi : String
deriving DecidableEq, Repr

/-- One cache slot, the `CachedContractInfo` type of the source. -/
structure CachedContractInfo where
  contract : Contract
  lastUsed : Nat
deriving DecidableEq, Repr

/-- The `MAX_CONTRACTS` capacity constant. -/
def MAX_CONTRACTS : Nat := 3

/-- The module-level `contractCache` JS object: an association list in key
insertion order (JS string-keyed objects preserve insertion order; keys are
unique; in-place update of `lastUsed` keeps the position; a new key is
appended). -/
abbrev ContractCache := List (String × CachedContractInfo)

/-- One row of the `ChallengeSmartContracts` table (`none` fields model
missing attributes). -/
structure ContractMeta where
  contract_address : Option String
  contract_abi : Option String
deriving DecidableEq, Repr

/-- External collaborators of `getContractForChallenge`: the metadata table,
the `ethers.utils.isAddress` validator and the `Date.now()` clock (fixed for
the call). -/
structure BlockEnv where
  contractsTable : String → Option ContractMeta
  isValidAddress : String → Bool
  now : Nat

/-- `contractCache[challengeId]` lookup. -/
def lookupEntry (cache : ContractCache) (challengeId : String) : Option CachedContractInfo :=
  match cache.find? (fun e => e.1 == challengeId) with
  | some e => some e.2
  | none => none

/-- The in-place `contractCache[challengeId].lastUsed = Date.now()` update
of the hit path. -/
def updateLastUsed (cache : ContractCache) (challengeId : String) (now : Nat) : ContractCache :=
  cache.map (fun e => if e.1 = challengeId then (e.1, { e.2 with lastUsed := now }) else e)

/-- The scan loop of `evictOldestContract`: the two mutable loop variables
`oldestChallenge`/`oldestTimestamp` are the accumulator (`none` models the
initial `null`/`Infinity` pair, so the first entry always wins and later
entries win only on a strictly smaller `lastUsed`). -/
def findOldestAux (acc : Option (String × Nat)) : ContractCache → Option (String × Nat)
  | [] => acc
  | e :: rest =>
    match acc with
    | none => findOldestAux (some (e.1, e.2.lastUsed)) rest
    | some (k, t) =>
      if e.2.lastUsed < t then findOldestAux (some (e.1, e.2.lastUsed)) rest
      else findOldestAux (some (k, t)) rest

/-- The completed scan of `evictOldestContract`. -/
def findOldest (cache : ContractCache) : Option (String × Nat) :=
  findOldestAux none cache

/-- `evictOldestContract`: delete the entry with the smallest `lastUsed`
(first such entry in iteration order on ties).  The source guards the delete
with `if (oldestChallenge)`, which is falsy both for `null` (empty cache)
and for the empty-string key. -/
def evictOldestContract (cache : ContractCache) : ContractCache :=
  match findOldest cache with
  | none => cache
  | some (k, _) =>
    if k = "" then cache else cache.filter (fun e => e.1 != k)

/-- `getContractForChallenge`: hit refreshes `lastUsed` and returns the
cached binding; miss loads the metadata row (missing row, invalid/missing
address, missing/falsy ABI each throw a distinct error and leave the cache
untouched), evicts the oldest entry when the cache is at capacity, then
appends the new binding stamped with `Date.now()`. -/
def getContractForChallenge (benv : BlockEnv) (cache : ContractCache)
    (challengeId : String) : Except String (Contract × ContractCache) :=
  match lookupEntry cache challengeId with
  | some info => Except.ok (info.contract, updateLastUsed cache challengeId benv.now)
  | none =>
    match benv.contractsTable challengeId with
    | none => Except.error ("No contract data found for challenge_id=" ++ challengeId)
    | some item =>
      match item.contract_address with
      | none => Except.error "Invalid contract address in ChallengeSmartContracts table: undefined"
      | some addr =>
        if benv.isValidAddress addr then
          match item.contract_abi with
          | none => Except.error ("No ABI found for challenge_id=" ++ challengeId)
          | some abi =>
            if abi = "" then
              Except.error ("No ABI found for challenge_id=" ++ challengeId)
            else
              let newContract : Contract := { address := addr, abi := abi }
              let cache1 :=
                if MAX_CONTRACTS ≤ cache.length then evictOldestContract cache else cache
              Except.ok (newContract,
                cache1 ++ [(challengeId, { contract := newContract, lastUsed := benv.now })])
        else
          Except.error ("Invalid contract address in ChallengeSmartContracts table: " ++ addr)

/-- Cache states reachable by the running process: the module-level cache
starts empty and is only mutated by successful `getContractForChallenge`
calls.  Every caller in the repository passes a non-empty challenge id
(`handleStreamData` rejects an empty `challenge_id` before the balance tool
can run, and the vault routes validate it as non-empty), so steps carry a
non-empty id. -/
inductive CacheReachable : ContractCache → Prop where
  | init : CacheReachable []
  | step (benv : BlockEnv) (challengeId : String) (cache : ContractCache)
      (c : Contract) (cache' : ContractCache) :
      CacheReachable cache → challengeId ≠ "" →
      getContractForChallenge benv cache challengeId = Except.ok (c, cache') →
      CacheReachable cache'

/-- Well-formedness maintained by the cache: unique non-empty keys and the
capacity bound. -/
def CacheWF (cache : ContractCache) : Prop :=
  (cache.map Prod.fst).Nodup ∧ "" ∉ cache.map Prod.fst ∧ cache.length ≤ MAX_CONTRACTS

/-! ### Helper lemmas: store components untouched by each accounting
sub-operation -/

theorem incPart_messages (env : Env) (cid : String) (s : Store) :
    (incrementChallengeParticipants env cid s).messages = s.messages := by
  unfold incrementChallengeParticipants
  split <;> rfl

theorem incPart_nextMsgId (env : Env) (cid : String) (s : Store) :
    (incrementChallengeParticipants env cid s).nextMsgId = s.nextMsgId := by
  unfold incrementChallengeParticipants
  split <;> rfl

theorem incPart_vaultPasswords (env : Env) (cid : String) (s : Store) :
    (incrementChallengeParticipants env cid s).vaultPasswords = s.vaultPasswords := by
  unfold incrementChallengeParticipants
  split <;> rfl

theorem incPart_count_self (env : Env) (cid : String) (s : Store)
    (h : env.incParticipantsFault = false) :
    (incrementChallengeParticipants env cid s).participantsCount cid =
      s.participantsCount cid + 1 := by
  unfold incrementChallengeParticipants
  simp [h]

theorem saveMsg_vaultPasswords (env : Env) (conv cid pid : String) (role : Role)
    (content : String) (s : Store) :
    (saveMessageToDb env conv cid pid role content s).vaultPasswords = s.vaultPasswords := by
  unfold saveMessageToDb
  split <;> rfl

theorem saveMsg_participantsCount (env : Env) (conv cid pid : String) (role : Role)
    (content : String) (s : Store) :
    (saveMessageToDb env conv cid pid role content s).participantsCount =
      s.participantsCount := by
  unfold saveMessageToDb
  split <;> rfl

theorem saveMsg_messages (env : Env) (conv cid pid : String) (role : Role)
    (content : String) (s : Store) (h : env.saveMessageFault = false) :
    (saveMessageToDb env conv cid pid role content s).messages =
      s.messages ++
        [{ conversation_id := conv
           message_id := toString s.nextMsgId
           challenge_id := cid
           participant_id := pid
           role := role
           content := content }] := by
  unfold saveMessageToDb
  simp [h]

theorem incMsgCount_messages (env : Env) (cid : String) (s : Store) :
    (incrementChallengeMessageCount env cid s).messages = s.messages := by
  unfold incrementChallengeMessageCount
  split <;> rfl

theorem incMsgCount_vaultPasswords (env : Env) (cid : String) (s : Store) :
    (incrementChallengeMessageCount env cid s).vaultPasswords = s.vaultPasswords := by
  unfold incrementChallengeMessageCount
  split <;> rfl

theorem incMsgCount_participantsCount (env : Env) (cid : String) (s : Store) :
    (incrementChallengeMessageCount env cid s).participantsCount = s.participantsCount := by
  unfold incrementChallengeMessageCount
  split <;> rfl

theorem decBal_messages (env : Env) (cid pid : String) (s : Store) :
    (decrementParticipantBalance env cid pid s).2.messages = s.messages := by
  unfold decrementParticipantBalance
  split <;> rfl

theorem decBal_vaultPasswords (env : Env) (cid pid : String) (s : Store) :
    (decrementParticipantBalance env cid pid s).2.vaultPasswords = s.vaultPasswords := by
  unfold decrementParticipantBalance
  split <;> rfl

theorem decBal_participantsCount (env : Env) (cid pid : String) (s : Store) :
    (decrementParticipantBalance env cid pid s).2.participantsCount =
      s.participantsCount := by
  unfold decrementParticipantBalance
  split <;> rfl

/-! ### Helper lemmas: `handleUserMessage` as a whole -/

theorem handleUserMessage_vaultPasswords (env : Env)
    (cid conv pid msg : String) (s : Store) :
    (handleUserMessage env cid conv pid msg s).vaultPasswords = s.vaultPasswords := by
  unfold handleUserMessage
  simp only [decBal_vaultPasswords, incMsgCount_vaultPasswords, saveMsg_vaultPasswords]
  split
  · exact incPart_vaultPasswords env cid s
  · rfl

theorem handleUserMessage_messages (env : Env) (cid conv pid msg : String) (s : Store)
    (hsv : env.saveMessageFault = false) :
    (handleUserMessage env cid conv pid msg s).messages =
      s.messages ++
        [{ conversation_id := defaultConv conv
           message_id := toString s.nextMsgId
           challenge_id := cid
           participant_id := pid
           role := Role.user
           content := msg }] := by
  unfold handleUserMessage
  simp only [decBal_messages, incMsgCount_messages, saveMsg_messages _ _ _ _ _ _ _ hsv]
  split
  · rw [incPart_messages, incPart_nextMsgId]
  · rfl

theorem handleUserMessage_participantsCount_first (env : Env)
    (cid conv pid msg : String) (s : Store)
    (hfirst : isFirstParticipantMessageInConversation env s conv = true)
    (hinc : env.incParticipantsFault = false) :
    (handleUserMessage env cid conv pid msg s).participantsCount cid =
      s.participantsCount cid + 1 := by
  unfold handleUserMessage
  simp only [decBal_participantsCount, incMsgCount_participantsCount,
    saveMsg_participantsCount, hfirst, if_true]
  exact incPart_count_self env cid s hinc

theorem handleUserMessage_participantsCount_rest (env : Env)
    (cid conv pid msg : String) (s : Store)
    (hfirst : isFirstParticipantMessageInConversation env s conv = false) :
    (handleUserMessage env cid conv pid msg s).participantsCount cid =
      s.participantsCount cid := by
  unfold handleUserMessage
  simp only [decBal_participantsCount, incMsgCount_participantsCount,
    saveMsg_participantsCount, hfirst, Bool.false_eq_true, if_false]

/-! ### Helper lemmas: one per terminal path of `handleStreamData` -/

theorem run_invalid_payload (env : Env) (req : Request) (s0 : Store)
    (hm : req.messages = none) :
    handleStreamData env req s0 =
      ⟨Response.error 400 "Invalid payload format.", s0, []⟩ := by
  unfold handleStreamData
  rw [hm]

theorem run_missing_challenge (env : Env) (req : Request) (s0 : Store)
    (messages : List ChatMessage)
    (hm : req.messages = some messages) (hc : req.challenge_id = "") :
    handleStreamData env req s0 =
      ⟨Response.error 400 "Missing challenge_id in request path", s0, []⟩ := by
  unfold handleStreamData
  rw [hm]
  simp only [if_pos hc]

theorem run_missing_participant (env : Env) (req : Request) (s0 : Store)
    (messages : List ChatMessage)
    (hm : req.messages = some messages) (hc : req.challenge_id ≠ "")
    (hp : req.participant_id = "") :
    handleStreamData env req s0 =
      ⟨Response.error 400 "Missing participant_id in query", s0, []⟩ := by
  unfold handleStreamData
  rw [hm]
  simp only [if_neg hc, if_pos hp]

theorem run_no_challenge_info (env : Env) (req : Request) (s0 : Store)
    (messages : List ChatMessage)
    (hm : req.messages = some messages) (hc : req.challenge_id ≠ "")
    (hp : req.participant_id ≠ "")
    (hinfo : getChallengeInfoFromDb env s0 req.challenge_id = none) :
    handleStreamData env req s0 =
      ⟨Response.error 500 "No challenge info found or DynamoDB error.", s0, []⟩ := by
  unfold handleStreamData
  rw [hm]
  simp only [if_neg hc, if_neg hp]
  rw [hinfo]

theorem run_no_user_message (env : Env) (req : Request) (s0 : Store)
    (messages : List ChatMessage) (lvl : String)
    (hm : req.messages = some messages) (hc : req.challenge_id ≠ "")
    (hp : req.participant_id ≠ "")
    (hinfo : getChallengeInfoFromDb env s0 req.challenge_id = some lvl)
    (hlatest : getLatestUserMessage messages = none) :
    handleStreamData env req s0 =
      ⟨Response.error 400 "No user message found.", s0, []⟩ := by
  unfold handleStreamData
  rw [hm]
  simp only [if_neg hc, if_neg hp]
  rw [hinfo, hlatest]

theorem run_balance_none (env : Env) (req : Request) (s0 : Store)
    (messages : List ChatMessage) (lvl m : String)
    (hm : req.messages = some messages) (hc : req.challenge_id ≠ "")
    (hp : req.participant_id ≠ "")
    (hinfo : getChallengeInfoFromDb env s0 req.challenge_id = some lvl)
    (hlatest : getLatestUserMessage messages = some m)
    (hbal : getParticipantBalance env s0 req.challenge_id req.participant_id = none) :
    handleStreamData env req s0 =
      ⟨Response.error 400 "Insufficient balance to send a message.", s0, []⟩ := by
  unfold handleStreamData
  rw [hm]
  simp only [if_neg hc, if_neg hp]
  rw [hinfo, hlatest, hbal]

theorem run_balance_nonpos (env : Env) (req : Request) (s0 : Store)
    (messages : List ChatMessage) (lvl m : String) (b : Int)
    (hm : req.messages = some messages) (hc : req.challenge_id ≠ "")
    (hp : req.participant_id ≠ "")
    (hinfo : getChallengeInfoFromDb env s0 req.challenge_id = some lvl)
    (hlatest : getLatestUserMessage messages = some m)
    (hbal : getParticipantBalance env s0 req.challenge_id req.participant_id = some b)
    (hb : b ≤ 0) :
    handleStreamData env req s0 =
      ⟨Response.error 400 "Insufficient balance to send a message.", s0, []⟩ := by
  unfold handleStreamData
  rw [hm]
  simp only [if_neg hc, if_neg hp]
  rw [hinfo, hlatest, hbal]
  simp only [if_pos hb]

theorem run_no_password (env : Env) (req : Request) (s0 : Store)
    (messages : List ChatMessage) (lvl m : String) (b : Int)
    (hm : req.messages = some messages) (hc : req.challenge_id ≠ "")
    (hp : req.participant_id ≠ "")
    (hinfo : getChallengeInfoFromDb env s0 req.challenge_id = some lvl)
    (hlatest : getLatestUserMessage messages = some m)
    (hbal : getParticipantBalance env s0 req.challenge_id req.participant_id = some b)
    (hb : ¬ b ≤ 0)
    (hpw : getVaultPasswordFromDb env
      (handleUserMessage env req.challenge_id (defaultConv req.conversation_id)
        req.participant_id m s0) req.challenge_id = "") :
    handleStreamData env req s0 =
      ⟨Response.error 500 "Vault password not configured or not found in DB.",
        handleUserMessage env req.challenge_id (defaultConv req.conversation_id)
          req.participant_id m s0, []⟩ := by
  unfold handleStreamData
  rw [hm]
  simp only [if_neg hc, if_neg hp]
  rw [hinfo, hlatest, hbal]
  simp only [if_neg hb, hpw]
  simp

theorem run_crack_slack_fail (env : Env) (req : Request) (s0 : Store)
    (messages : List ChatMessage) (lvl m pw : String) (b : Int)
    (hm : req.messages = some messages) (hc : req.challenge_id ≠ "")
    (hp : req.participant_id ≠ "")
    (hinfo : getChallengeInfoFromDb env s0 req.challenge_id = some lvl)
    (hlatest : getLatestUserMessage messages = some m)
    (hbal : getParticipantBalance env s0 req.challenge_id req.participant_id = some b)
    (hb : ¬ b ≤ 0)
    (hpw : getVaultPasswordFromDb env
      (handleUserMessage env req.challenge_id (defaultConv req.conversation_id)
        req.participant_id m s0) req.challenge_id = pw)
    (hpwne : pw ≠ "")
    (hcon : strContains m pw = true)
    (hw : env.slackWebhookUrl ≠ "") (hcv : req.conversation_id ≠ "")
    (hfail : env.slackFails = true) :
    handleStreamData env req s0 =
      ⟨Response.error 500 ("Slack notification error: " ++ env.slackErrMsg),
        handleUserMessage env req.challenge_id (defaultConv req.conversation_id)
          req.participant_id m s0,
        [Event.slackNotify (slackCrackMsg req.conversation_id)]⟩ := by
  unfold handleStreamData
  rw [hm]
  simp only [if_neg hc, if_neg hp]
  rw [hinfo, hlatest, hbal]
  simp only [if_neg hb, hpw, if_neg hpwne, hcon, if_pos (And.intro hw hcv), hfail]
  simp

theorem run_crack_slack_ok (env : Env) (req : Request) (s0 : Store)
    (messages : List ChatMessage) (lvl m pw : String) (b : Int)
    (hm : req.messages = some messages) (hc : req.challenge_id ≠ "")
    (hp : req.participant_id ≠ "")
    (hinfo : getChallengeInfoFromDb env s0 req.challenge_id = some lvl)
    (hlatest : getLatestUserMessage messages = some m)
    (hbal : getParticipantBalance env s0 req.challenge_id req.participant_id = some b)
    (hb : ¬ b ≤ 0)
    (hpw : getVaultPasswordFromDb env
      (handleUserMessage env req.challenge_id (defaultConv req.conversation_id)
        req.participant_id m s0) req.challenge_id = pw)
    (hpwne : pw ≠ "")
    (hcon : strContains m pw = true)
    (hw : env.slackWebhookUrl ≠ "") (hcv : req.conversation_id ≠ "")
    (hfail : env.slackFails = false) :
    handleStreamData env req s0 =
      ⟨Response.streamed,
        saveMessageToDb env (defaultConv req.conversation_id) req.challenge_id
          req.participant_id Role.assistant finalRewardMsg
          (handleUserMessage env req.challenge_id (defaultConv req.conversation_id)
            req.participant_id m s0),
        [Event.slackNotify (slackCrackMsg req.conversation_id),
          Event.streamWrite (writeTransformedChunk finalRewardMsg)]⟩ := by
  unfold handleStreamData
  rw [hm]
  simp only [if_neg hc, if_neg hp]
  rw [hinfo, hlatest, hbal]
  simp only [if_neg hb, hpw, if_neg hpwne, hcon, if_pos (And.intro hw hcv), hfail,
    Bool.false_eq_true, if_false]
  simp

theorem run_crack_slack_skipped (env : Env) (req : Request) (s0 : Store)
    (messages : List ChatMessage) (lvl m pw : String) (b : Int)
    (hm : req.messages = some messages) (hc : req.challenge_id ≠ "")
    (hp : req.participant_id ≠ "")
    (hinfo : getChallengeInfoFromDb env s0 req.challenge_id = some lvl)
    (hlatest : getLatestUserMessage messages = some m)
    (hbal : getParticipantBalance env s0 req.challenge_id req.participant_id = some b)
    (hb : ¬ b ≤ 0)
    (hpw : getVaultPasswordFromDb env
      (handleUserMessage env req.challenge_id (defaultConv req.conversation_id)
        req.participant_id m s0) req.challenge_id = pw)
    (hpwne : pw ≠ "")
    (hcon : strContains m pw = true)
    (hskip : ¬ (env.slackWebhookUrl ≠ "" ∧ req.conversation_id ≠ "")) :
    handleStreamData env req s0 =
      ⟨Response.streamed,
        saveMessageToDb env (defaultConv req.conversation_id) req.challenge_id
          req.participant_id Role.assistant finalRewardMsg
          (handleUserMessage env req.challenge_id (defaultConv req.conversation_id)
            req.participant_id m s0),
        [Event.streamWrite (writeTransformedChunk finalRewardMsg)]⟩ := by
  unfold handleStreamData
  rw [hm]
  simp only [if_neg hc, if_neg hp]
  rw [hinfo, hlatest, hbal]
  simp only [if_neg hb, hpw, if_neg hpwne, hcon, if_neg hskip]
  simp

theorem run_easy (env : Env) (req : Request) (s0 : Store)
    (messages : List ChatMessage) (m pw : String) (b : Int)
    (hm : req.messages = some messages) (hc : req.challenge_id ≠ "")
    (hp : req.participant_id ≠ "")
    (hinfo : getChallengeInfoFromDb env s0 req.challenge_id = some "EASY")
    (hlatest : getLatestUserMessage messages = some m)
    (hbal : getParticipantBalance env s0 req.challenge_id req.participant_id = some b)
    (hb : ¬ b ≤ 0)
    (hpw : getVaultPasswordFromDb env
      (handleUserMessage env req.challenge_id (defaultConv req.conversation_id)
        req.participant_id m s0) req.challenge_id = pw)
    (hpwne : pw ≠ "")
    (hcon : strContains m pw = false) :
    handleStreamData env req s0 =
      ⟨Response.streamed,
        saveMessageToDb env (defaultConv req.conversation_id) req.challenge_id
          req.participant_id Role.assistant (fetchAgent1Text env)
          (handleUserMessage env req.challenge_id (defaultConv req.conversation_id)
            req.participant_id m s0),
        [Event.agent1Call,
          Event.streamWrite (writeTransformedChunk (fetchAgent1Text env))]⟩ := by
  unfold handleStreamData
  rw [hm]
  simp only [if_neg hc, if_neg hp]
  rw [hinfo, hlatest, hbal]
  simp only [if_neg hb, hpw, if_neg hpwne, hcon, Bool.false_eq_true, if_false]
  simp

theorem run_hard (env : Env) (req : Request) (s0 : Store)
    (messages : List ChatMessage) (m pw : String) (b : Int)
    (hm : req.messages = some messages) (hc : req.challenge_id ≠ "")
    (hp : req.participant_id ≠ "")
    (hinfo : getChallengeInfoFromDb env s0 req.challenge_id = some "HARD")
    (hlatest : getLatestUserMessage messages = some m)
    (hbal : getParticipantBalance env s0 req.challenge_id req.participant_id = some b)
    (hb : ¬ b ≤ 0)
    (hpw : getVaultPasswordFromDb env
      (handleUserMessage env req.challenge_id (defaultConv req.conversation_id)
        req.participant_id m s0) req.challenge_id = pw)
    (hpwne : pw ≠ "")
    (hcon : strContains m pw = false) :
    handleStreamData env req s0 =
      ⟨Response.streamed,
        saveMessageToDb env (defaultConv req.conversation_id) req.challenge_id
          req.participant_id Role.assistant (String.join env.agent2Frags)
          (handleUserMessage env req.challenge_id (defaultConv req.conversation_id)
            req.participant_id m s0),
        [Event.agent1Call, Event.agent2Call] ++
          env.agent2Frags.map (fun f => Event.streamWrite (writeTransformedChunk f))⟩ := by
  unfold handleStreamData
  rw [hm]
  simp only [if_neg hc, if_neg hp]
  rw [hinfo, hlatest, hbal]
  simp only [if_neg hb, hpw, if_neg hpwne, hcon, Bool.false_eq_true, if_false]
  simp

theorem run_unknown_level (env : Env) (req : Request) (s0 : Store)
    (messages : List ChatMessage) (lvl m pw : String) (b : Int)
    (hm : req.messages = some messages) (hc : req.challenge_id ≠ "")
    (hp : req.participant_id ≠ "")
    (hinfo : getChallengeInfoFromDb env s0 req.challenge_id = some lvl)
    (hlatest : getLatestUserMessage messages = some m)
    (hbal : getParticipantBalance env s0 req.challenge_id req.participant_id = some b)
    (hb : ¬ b ≤ 0)
    (hpw : getVaultPasswordFromDb env
      (handleUserMessage env req.challenge_id (defaultConv req.conversation_id)
        req.participant_id m s0) req.challenge_id = pw)
    (hpwne : pw ≠ "")
    (hcon : strContains m pw = false)
    (hlvE : lvl ≠ "EASY") (hlvH : lvl ≠ "HARD") :
    handleStreamData env req s0 =
      ⟨Response.error 400 ("Unknown challenge level: " ++ lvl),
        handleUserMessage env req.challenge_id (defaultConv req.conversation_id)
          req.participant_id m s0, []⟩ := by
  unfold handleStreamData
  rw [hm]
  simp only [if_neg hc, if_neg hp]
  rw [hinfo, hlatest, hbal]
  simp only [if_neg hb, hpw, if_neg hpwne, hcon, Bool.false_eq_true, if_false,
    if_neg hlvE, if_neg hlvH]

/-! ### Helper lemmas for the contract cache -/

theorem findOldestAux_spec (cache : ContractCache) :
    ∀ (acc : Option (String × Nat)) (k : String) (t : Nat),
      findOldestAux acc cache = some (k, t) →
      (acc = some (k, t) ∨ ∃ info, (k, info) ∈ cache ∧ info.lastUsed = t) ∧
        (∀ e ∈ cache, t ≤ e.2.lastUsed) ∧
        (∀ k0 t0, acc = some (k0, t0) → t ≤ t0) := by
  induction cache with
  | nil =>
    intro acc k t h
    simp only [findOldestAux] at h
    refine ⟨Or.inl h, by simp, ?_⟩
    intro k0 t0 h0
    rw [h0] at h
    cases h
    rfl
  | cons e rest ih =>
    intro acc k t h
    match hacc : acc with
    | none =>
      simp only [findOldestAux] at h
      obtain ⟨hmem, hmin, hacc'⟩ := ih (some (e.1, e.2.lastUsed)) k t h
      have hht : t ≤ e.2.lastUsed := hacc' e.1 e.2.lastUsed rfl
      refine ⟨Or.inr ?_, ?_, by simp⟩
      · rcases hmem with hm | ⟨info, hi, hlu⟩
        · cases hm
          exact ⟨e.2, List.mem_cons_self e rest, rfl⟩
        · exact ⟨info, List.mem_cons_of_mem e hi, hlu⟩
      · intro e' he'
        rcases List.mem_cons.mp he' with rfl | he''
        · exact hht
        · exact hmin e' he''
    | some (k0, t0) =>
      simp only [findOldestAux] at h
      by_cases hlt : e.2.lastUsed < t0
      · rw [if_pos hlt] at h
        obtain ⟨hmem, hmin, hacc'⟩ := ih (some (e.1, e.2.lastUsed)) k t h
        have hht : t ≤ e.2.lastUsed := hacc' e.1 e.2.lastUsed rfl
        refine ⟨Or.inr ?_, ?_, ?_⟩
        · rcases hmem with hm | ⟨info, hi, hlu⟩
          · cases hm
            exact ⟨e.2, List.mem_cons_self e rest, rfl⟩
          · exact ⟨info, List.mem_cons_of_mem e hi, hlu⟩
        · intro e' he'
          rcases List.mem_cons.mp he' with rfl | he''
          · exact hht
          · exact hmin e' he''
        · intro k1 t1 h1
          cases h1
          exact le_of_lt (lt_of_le_of_lt hht hlt)
      · rw [if_neg hlt] at h
        obtain ⟨hmem, hmin, hacc'⟩ := ih (some (k0, t0)) k t h
        have hht0 : t ≤ t0 := hacc' k0 t0 rfl
        refine ⟨?_, ?_, ?_⟩
        · rcases hmem with hm | ⟨info, hi, hlu⟩
          · exact Or.inl hm
          · exact Or.inr ⟨info, List.mem_cons_of_mem e hi, hlu⟩
        · intro e' he'
          rcases List.mem_cons.mp he' with rfl | he''
          · exact le_trans hht0 (le_of_not_lt hlt)
          · exact hmin e' he''
        · intro k1 t1 h1
          cases h1
          exact hht0

theorem findOldest_spec (cache : ContractCache) (k : String) (t : Nat)
    (h : findOldest cache = some (k, t)) :
    (∃ info, (k, info) ∈ cache ∧ info.lastUsed = t) ∧ ∀ e ∈ cache, t ≤ e.2.lastUsed := by
  obtain ⟨hmem, hmin, _⟩ := findOldestAux_spec cache none k t h
  rcases hmem with hm | hm
  · cases hm
  · exact ⟨hm, hmin⟩

theorem findOldestAux_isSome (cache : ContractCache) :
    ∀ (k0 : String) (t0 : Nat), ∃ k t,
      findOldestAux (some (k0, t0)) cache = some (k, t) := by
  induction cache with
  | nil =>
    intro k0 t0
    exact ⟨k0, t0, rfl⟩
  | cons e rest ih =>
    intro k0 t0
    simp only [findOldestAux]
    by_cases hlt : e.2.lastUsed < t0
    · rw [if_pos hlt]
      exact ih e.1 e.2.lastUsed
    · rw [if_neg hlt]
      exact ih k0 t0

theorem findOldest_cons (e : String × CachedContractInfo) (rest : ContractCache) :
    ∃ k t, findOldest (e :: rest) = some (k, t) := by
  simp only [findOldest, findOldestAux]
  exact findOldestAux_isSome rest e.1 e.2.lastUsed

theorem evictOldest_eq_filter (cache : ContractCache) (k : String) (t : Nat)
    (h : findOldest cache = some (k, t)) (hk : k ≠ "") :
    evictOldestContract cache = cache.filter (fun e => e.1 != k) := by
  unfold evictOldestContract
  rw [h]
  simp [hk]

theorem lookupEntry_none_not_mem (cache : ContractCache) (cid : String)
    (h : lookupEntry cache cid = none) : cid ∉ cache.map Prod.fst := by
  intro hmem
  obtain ⟨e, he, hfst⟩ := List.mem_map.mp hmem
  unfold lookupEntry at h
  cases hf : List.find? (fun e => e.1 == cid) cache with
  | some e' => rw [hf] at h; cases h
  | none =>
    have hall := List.find?_eq_none.mp hf e he
    rw [hfst] at hall
    simp at hall

theorem filter_ne_of_not_mem (cache : ContractCache) (k : String)
    (h : k ∉ cache.map Prod.fst) : cache.filter (fun e => e.1 != k) = cache := by
  apply List.filter_eq_self.mpr
  intro a ha
  have hne : a.1 ≠ k := fun heq => h (List.mem_map.mpr ⟨a, ha, heq⟩)
  simpa using hne

theorem filter_ne_length (cache : ContractCache) (k : String)
    (hnd : (cache.map Prod.fst).Nodup) (hm : k ∈ cache.map Prod.fst) :
    (cache.filter (fun e => e.1 != k)).length + 1 = cache.length := by
  induction cache with
  | nil => cases hm
  | cons e rest ih =>
    simp only [List.map_cons, List.nodup_cons] at hnd
    simp only [List.map_cons, List.mem_cons] at hm
    by_cases hek : e.1 = k
    · rw [List.filter_cons]
      have hb : (e.1 != k) = false := by simp [hek]
      rw [hb]
      simp only [Bool.false_eq_true, if_false]
      rw [filter_ne_of_not_mem rest k (hek ▸ hnd.1)]
      simp
    · have hk : k ∈ rest.map Prod.fst := by
        rcases hm with h0 | h0
        · exact absurd h0.symm hek
        · exact h0
      rw [List.filter_cons]
      have hb : (e.1 != k) = true := by simpa using hek
      rw [hb]
      simp only [if_true, List.length_cons]
      have := ih hnd.2 hk
      omega

theorem filter_ne_map_fst_sublist (cache : ContractCache) (k : String) :
    ((cache.filter (fun e => e.1 != k)).map Prod.fst).Sublist (cache.map Prod.fst) :=
  List.Sublist.map Prod.fst (List.filter_sublist cache)

theorem updateLastUsed_map_fst (cache : ContractCache) (cid : String) (now : Nat) :
    (updateLastUsed cache cid now).map Prod.fst = cache.map Prod.fst := by
  unfold updateLastUsed
  rw [List.map_map]
  apply List.map_congr_left
  intro e _
  by_cases h : e.1 = cid
  · simp [h]
  · simp [h]

theorem updateLastUsed_length (cache : ContractCache) (cid : String) (now : Nat) :
    (updateLastUsed cache cid now).length = cache.length := by
  unfold updateLastUsed
  exact List.length_map cache _

theorem lookupEntry_updateLastUsed_self (cache : ContractCache) (cid : String) (now : Nat)
    (info : CachedContractInfo) (h : lookupEntry cache cid = some info) :
    lookupEntry (updateLastUsed cache cid now) cid =
      some { info with lastUsed := now } := by
  induction cache with
  | nil => simp [lookupEntry] at h
  | cons e rest ih =>
    by_cases he : e.1 = cid
    · unfold lookupEntry at h ⊢
      unfold updateLastUsed
      simp only [List.map_cons, List.find?_cons, if_pos he]
      have hbeq : (e.1 == cid) = true := by simpa using he
      rw [List.find?_cons] at h
      simp only [hbeq] at h ⊢
      cases h
      rfl
    · have hbeq : (e.1 == cid) = false := by simpa using he
      unfold lookupEntry at h ⊢
      unfold updateLastUsed
      simp only [List.map_cons, List.find?_cons, if_neg he, hbeq] at h ⊢
      have := ih (by unfold lookupEntry; exact h)
      unfold lookupEntry updateLastUsed at this
      exact this

theorem lookupEntry_updateLastUsed_other (cache : ContractCache) (cid : String) (now : Nat)
    (k : String) (hk : k ≠ cid) :
    lookupEntry (updateLastUsed cache cid now) k = lookupEntry cache k := by
  induction cache with
  | nil => rfl
  | cons e rest ih =>
    by_cases he : e.1 = cid
    · have hbeq : (e.1 == k) = false := by
        simp only [beq_eq_false_iff_ne, ne_eq]
        intro heq
        exact hk (heq ▸ he)
      unfold lookupEntry updateLastUsed
      simp only [List.map_cons, List.find?_cons, if_pos he, hbeq]
      have := ih
      unfold lookupEntry updateLastUsed at this
      exact this
    · unfold lookupEntry updateLastUsed
      simp only [List.map_cons, List.find?_cons, if_neg he]
      cases hbeq : (e.1 == k) with
      | true => rfl
      | false =>
        have := ih
        unfold lookupEntry updateLastUsed at this
        exact this

theorem getContract_hit (benv : BlockEnv) (cache : ContractCache) (cid : String)
    (info : CachedContractInfo) (h : lookupEntry cache cid = some info) :
    getContractForChallenge benv cache cid =
      Except.ok (info.contract, updateLastUsed cache cid benv.now) := by
  unfold getContractForChallenge
  rw [h]

theorem getContract_miss_full (benv : BlockEnv) (cache : ContractCache) (cid : String)
    (meta : ContractMeta) (addr abi : String)
    (hl : lookupEntry cache cid = none)
    (hmeta : benv.contractsTable cid = some meta)
    (haddr : meta.contract_address = some addr)
    (hvalid : benv.isValidAddress addr = true)
    (habi : meta.contract_abi = some abi) (habine : abi ≠ "")
    (hlen : MAX_CONTRACTS ≤ cache.length) :
    getContractForChallenge benv cache cid =
      Except.ok ({ address := addr, abi := abi },
        evictOldestContract cache ++
          [(cid, { contract := { address := addr, abi := abi }, lastUsed := benv.now })]) := by
  unfold getContractForChallenge
  rw [hl]
  simp only [hmeta, haddr, habi, hvalid]
  simp [habine, hlen]

theorem getContract_miss_room (benv : BlockEnv) (cache : ContractCache) (cid : String)
    (meta : ContractMeta) (addr abi : String)
    (hl : lookupEntry cache cid = none)
    (hmeta : benv.contractsTable cid = some meta)
    (haddr : meta.contract_address = some addr)
    (hvalid : benv.isValidAddress addr = true)
    (habi : meta.contract_abi = some abi) (habine : abi ≠ "")
    (hlen : ¬ MAX_CONTRACTS ≤ cache.length) :
    getContractForChallenge benv cache cid =
      Except.ok ({ address := addr, abi := abi },
        cache ++
          [(cid, { contract := { address := addr, abi := abi }, lastUsed := benv.now })]) := by
  unfold getContractForChallenge
  rw [hl]
  simp only [hmeta, haddr, habi, hvalid]
  simp [habine, hlen]

theorem getContract_preserves_WF (benv : BlockEnv) (cache : ContractCache) (cid : String)
    (c : Contract) (cache' : ContractCache)
    (hwf : CacheWF cache) (hcid : cid ≠ "")
    (h : getContractForChallenge benv cache cid = Except.ok (c, cache')) :
    CacheWF cache' := by
  obtain ⟨hnd, hne, hlen⟩ := hwf
  unfold getContractForChallenge at h
  split at h
  case _ info heq =>
    obtain ⟨-, h2⟩ := Prod.mk.injEq .. ▸ (Except.ok.injEq .. ▸ h)
    subst h2
    exact ⟨updateLastUsed_map_fst cache cid benv.now ▸ hnd,
      updateLastUsed_map_fst cache cid benv.now ▸ hne,
      updateLastUsed_length cache cid benv.now ▸ hlen⟩
  case _ hmiss =>
    split at h
    case _ => cases h
    case _ meta hmeta =>
      split at h
      case _ => cases h
      case _ addr haddr =>
        split at h
        case isFalse => cases h
        case isTrue hvalid =>
          split at h
          case _ => cases h
          case _ abi habi =>
            split at h
            case isTrue => cases h
            case isFalse habine =>
              simp only [Except.ok.injEq, Prod.mk.injEq] at h
              obtain ⟨-, h2⟩ := h
              subst h2
              have hnotmem : cid ∉ cache.map Prod.fst :=
                lookupEntry_none_not_mem cache cid hmiss
              by_cases hcap : MAX_CONTRACTS ≤ cache.length
              · rw [if_pos hcap]
                have hnonnil : cache ≠ [] := by
                  intro h0
                  rw [h0] at hcap
                  simp [MAX_CONTRACTS] at hcap
                obtain ⟨e, rest, hc⟩ := List.exists_cons_of_ne_nil hnonnil
                obtain ⟨k, t, hfo⟩ : ∃ k t, findOldest cache = some (k, t) := by
                  rw [hc]
                  exact findOldest_cons e rest
                obtain ⟨⟨info, hmem, -⟩, -⟩ := findOldest_spec cache k t hfo
                have hkmem : k ∈ cache.map Prod.fst :=
                  List.mem_map.mpr ⟨(k, info), hmem, rfl⟩
                have hkne : k ≠ "" := fun hk0 => hne (hk0 ▸ hkmem)
                rw [evictOldest_eq_filter cache k t hfo hkne]
                constructor
                · rw [List.map_append]
                  apply List.Nodup.append
                  · exact (filter_ne_map_fst_sublist cache k).nodup hnd
                  · simp
                  · intro x hx hx'
                    simp only [List.map_cons, List.map_nil, List.mem_singleton] at hx'
                    subst hx'
                    exact hnotmem ((filter_ne_map_fst_sublist cache k).mem hx)
                constructor
                · rw [List.map_append]
                  intro hmem0
                  rcases List.mem_append.mp hmem0 with h0 | h0
                  · exact hne ((filter_ne_map_fst_sublist cache k).mem h0)
                  · simp only [List.map_cons, List.map_nil, List.mem_singleton] at h0
                    exact hcid h0.symm
                · rw [List.length_append]
                  have := filter_ne_length cache k hnd hkmem
                  simp only [List.length_cons, List.length_nil]
                  omega
              · rw [if_neg hcap]
                constructor
                · rw [List.map_append]
                  apply List.Nodup.append hnd (by simp)
                  intro x hx hx'
                  simp only [List.map_cons, List.map_nil, List.mem_singleton] at hx'
                  subst hx'
                  exact hnotmem hx
                constructor
                · rw [List.map_append]
                  intro hmem0
                  rcases List.mem_append.mp hmem0 with h0 | h0
                  · exact hne h0
                  · simp only [List.map_cons, List.map_nil, List.mem_singleton] at h0
                    exact hcid h0.symm
                · rw [List.length_append]
                  simp only [List.length_cons, List.length_nil]
                  omega

theorem cacheReachable_WF (cache : ContractCache) (h : CacheReachable cache) :
    CacheWF cache := by
  induction h with
  | init => exact ⟨List.nodup_nil, by simp, by simp [MAX_CONTRACTS]⟩
  | step benv cid cache c cache' _ hne hok ih =>
    exact getContract_preserves_WF benv cache cid c cache' ih hne hok

/-! ### Concrete fixtures used by the witness theorems -/

/-- A fault-free collaborator oracle: no webhook configured, fixed agent
outputs. -/
def envOk : Env :=
  { challengeInfoFault := false
    balanceReadFault := false
    firstMsgQueryFault := false
    vaultPasswordFault := false
    saveMessageFault := false
    incParticipantsFault := false
    incMessagesFault := false
    decBalanceFault := false
    slackWebhookUrl := ""
    slackFails := false
    slackErrMsg := ""
    agent1Text := "Never!"
    agent2Frags := ["Well", " guarded"] }

/-- A store with one EASY challenge `ch1`, participant `pt1` holding
balance 5, and vault password `sesame`. -/
def storeOk : Store :=
  { messages := []
    participantsCount := fun _ => 0
    messagesCount := fun _ => 0
    balances := fun c p => if c = "ch1" ∧ p = "pt1" then some 5 else none
    vaultPasswords := fun c => if c = "ch1" then some "sesame" else none
    challengeLevels := fun c => if c = "ch1" then some "EASY" else none
    nextMsgId := 0 }

/-- A well-formed request whose latest user message does not contain the
password. -/
def reqOk : Request :=
  { messages := some [{ role := Role.user, content := "hello" }]
    challenge_id := "ch1"
    conversation_id := "cv1"
    participant_id := "pt1" }

/-- A request whose latest user message contains the password `sesame`. -/
def reqCrack : Request :=
  { messages := some [{ role := Role.user, content := "open sesame please" }]
    challenge_id := "ch1"
    conversation_id := "cv1"
    participant_id := "pt1" }

/-- `storeOk` with the participant balance at zero. -/
def storeZeroBal : Store :=
  { storeOk with balances := fun c p => if c = "ch1" ∧ p = "pt1" then some 0 else none }

/-- `storeOk` with no vault password configured. -/
def storeNoPw : Store :=
  { storeOk with vaultPasswords := fun _ => none }

/-- `storeOk` with the challenge level set to the unrecognized `MEDIUM`. -/
def storeMedium : Store :=
  { storeOk with challengeLevels := fun c => if c = "ch1" then some "MEDIUM" else none }

/-- `storeOk` with the challenge level `HARD`. -/
def storeHard : Store :=
  { storeOk with challengeLevels := fun c => if c = "ch1" then some "HARD" else none }

/-- `envOk` with a Slack webhook configured and failing. -/
def envSlackFail : Env :=
  { envOk with
    slackWebhookUrl := "https://hooks.example"
    slackFails := true
    slackErrMsg := "boom" }

/-- `envOk` with a Slack webhook configured and succeeding. -/
def envSlackOk : Env :=
  { envOk with slackWebhookUrl := "https://hooks.example" }

/-- `envOk` with the balance read throwing. -/
def envBalFault : Env :=
  { envOk with balanceReadFault := true }

/-- `reqOk` with a missing (non-array) messages payload. -/
def reqNoMsgs : Request :=
  { reqOk with messages := none }

/-- `reqOk` with an empty messages array. -/
def reqEmptyMsgs : Request :=
  { reqOk with messages := some [] }

/-- `reqOk` with a messages array holding no user-role entry. -/
def reqNoUserEntry : Request :=
  { reqOk with messages := some [{ role := Role.assistant, content := "hi" }] }

/-- `reqOk` with a missing challenge id. -/
def reqNoChallenge : Request :=
  { reqOk with challenge_id := "" }

/-- `reqOk` with a missing participant id. -/
def reqNoParticipant : Request :=
  { reqOk with participant_id := "" }

/-! ### Claim C1 -/

/-- Claim C1: for every request that passes validation (well-formed payload,
challenge and participant ids, resolvable challenge info, a latest user
message), if the participant balance read returns not-found or a value ≤ 0,
`handleStreamData` responds 400 insufficient-balance and performs no store
write at all: the store is returned unchanged (no message row, no counter
increment, no balance decrement) and no external action fires. -/
theorem spec_C1_insufficient_balance_rejects (env : Env) (req : Request) (s0 : Store)
    (messages : List ChatMessage) (lvl m : String)
    (hm : req.messages = some messages) (hc : req.challenge_id ≠ "")
    (hp : req.participant_id ≠ "")
    (hinfo : getChallengeInfoFromDb env s0 req.challenge_id = some lvl)
    (hlatest : getLatestUserMessage messages = some m)
    (hbal : getParticipantBalance env s0 req.challenge_id req.participant_id = none ∨
      ∃ b, getParticipantBalance env s0 req.challenge_id req.participant_id = some b ∧
        b ≤ 0) :
    (handleStreamData env req s0).response =
      Response.error 400 "Insufficient balance to send a message." ∧
    (handleStreamData env req s0).store = s0 ∧
    (handleStreamData env req s0).events = [] := by
  rcases hbal with hb | ⟨b, hb, hble⟩
  · rw [run_balance_none env req s0 messages lvl m hm hc hp hinfo hlatest hb]
    exact ⟨rfl, rfl, rfl⟩
  · rw [run_balance_nonpos env req s0 messages lvl m b hm hc hp hinfo hlatest hb hble]
    exact ⟨rfl, rfl, rfl⟩

/-- Claim C1 witness: the zero-balance store rejects the well-formed request
with 400 and leaves the store untouched. -/
theorem spec_C1_insufficient_balance_rejects_witness :
    (handleStreamData envOk reqOk storeZeroBal).response =
      Response.error 400 "Insufficient balance to send a message." ∧
    (handleStreamData envOk reqOk storeZeroBal).store = storeZeroBal ∧
    (handleStreamData envOk reqOk storeZeroBal).events = [] :=
  spec_C1_insufficient_balance_rejects envOk reqOk storeZeroBal
    [{ role := Role.user, content := "hello" }] "EASY" "hello"
    rfl (by decide) (by decide) rfl rfl
    (Or.inr ⟨0, rfl, le_refl 0⟩)

/-! ### Claim C7 -/

/-- Claim C7 counterexample: a request with an empty messages array (one
that "lacks a non-empty array of messages") on a challenge id with no
challenge-info row fails with a 500, not a 400 as the claim states — the
challenge-info fetch precedes the latest-user-message check.  (There is
still no store write.) -/
theorem spec_C7_counterexample :
    (handleStreamData envOk { reqEmptyMsgs with challenge_id := "nochallenge" }
      storeOk).response = Response.error 500 "No challenge info found or DynamoDB error." ∧
    (handleStreamData envOk { reqEmptyMsgs with challenge_id := "nochallenge" }
      storeOk).store = storeOk :=
  ⟨rfl, rfl⟩

/-- Claim C7 (amended): a missing/non-array messages field, a missing
challenge id, or a missing participant id each yield a 400 with no store
write; an empty messages array or one without a user entry yields a 400
with no store write provided the challenge-info lookup succeeds, and a 500
(still with no store write) when that lookup fails. -/
theorem spec_C7_validation_rejects (env : Env) (req : Request) (s0 : Store) :
    (req.messages = none →
      handleStreamData env req s0 =
        ⟨Response.error 400 "Invalid payload format.", s0, []⟩) ∧
    (∀ messages, req.messages = some messages → req.challenge_id = "" →
      handleStreamData env req s0 =
        ⟨Response.error 400 "Missing challenge_id in request path", s0, []⟩) ∧
    (∀ messages, req.messages = some messages → req.challenge_id ≠ "" →
      req.participant_id = "" →
      handleStreamData env req s0 =
        ⟨Response.error 400 "Missing participant_id in query", s0, []⟩) ∧
    (∀ messages lvl, req.messages = some messages → req.challenge_id ≠ "" →
      req.participant_id ≠ "" →
      getChallengeInfoFromDb env s0 req.challenge_id = some lvl →
      getLatestUserMessage messages = none →
      handleStreamData env req s0 =
        ⟨Response.error 400 "No user message found.", s0, []⟩) ∧
    (∀ messages, req.messages = some messages → req.challenge_id ≠ "" →
      req.participant_id ≠ "" →
      getChallengeInfoFromDb env s0 req.challenge_id = none →
      handleStreamData env req s0 =
        ⟨Response.error 500 "No challenge info found or DynamoDB error.", s0, []⟩) := by
  refine ⟨?_, ?_, ?_, ?_, ?_⟩
  · intro hm
    exact run_invalid_payload env req s0 hm
  · intro messages hm hc
    exact run_missing_challenge env req s0 messages hm hc
  · intro messages hm hc hp
    exact run_missing_participant env req s0 messages hm hc hp
  · intro messages lvl hm hc hp hinfo hlatest
    exact run_no_user_message env req s0 messages lvl hm hc hp hinfo hlatest
  · intro messages hm hc hp hinfo
    exact run_no_challenge_info env req s0 messages hm hc hp hinfo

/-- Claim C7 witness: the four 400-rejections and the 500-rejection, each at
a concrete request, with the store always unchanged. -/
theorem spec_C7_validation_rejects_witness :
    handleStreamData envOk reqNoMsgs storeOk =
      ⟨Response.error 400 "Invalid payload format.", storeOk, []⟩ ∧
    handleStreamData envOk reqNoChallenge storeOk =
      ⟨Response.error 400 "Missing challenge_id in request path", storeOk, []⟩ ∧
    handleStreamData envOk reqNoParticipant storeOk =
      ⟨Response.error 400 "Missing participant_id in query", storeOk, []⟩ ∧
    handleStreamData envOk reqNoUserEntry storeOk =
      ⟨Response.error 400 "No user message found.", storeOk, []⟩ ∧
    handleStreamData envOk { reqEmptyMsgs with challenge_id := "ch2" } storeOk =
      ⟨Response.error 500 "No challenge info found or DynamoDB error.", storeOk, []⟩ := by
  refine ⟨?_, ?_, ?_, ?_, ?_⟩
  · exact (spec_C7_validation_rejects envOk reqNoMsgs storeOk).1 rfl
  · exact (spec_C7_validation_rejects envOk reqNoChallenge storeOk).2.1
      [{ role := Role.user, content := "hello" }] rfl rfl
  · exact (spec_C7_validation_rejects envOk reqNoParticipant storeOk).2.2.1
      [{ role := Role.user, content := "hello" }] rfl (by decide) rfl
  · exact (spec_C7_validation_rejects envOk reqNoUserEntry storeOk).2.2.2.1
      [{ role := Role.assistant, content := "hi" }] "EASY" rfl (by decide) (by decide)
      rfl rfl
  · exact (spec_C7_validation_rejects envOk
      { reqEmptyMsgs with challenge_id := "ch2" } storeOk).2.2.2.2
      [] rfl (by decide) (by decide) rfl

/-! ### Claim C8 -/

/-- Claim C8: for every accepted request, when the vault password for the
challenge is missing, empty, or unreadable, the orchestrator fails with the
500-class error `Vault password not configured or not found in DB.` — a
failure class distinct from the 400 business rejections — no external
action fires and the crack check never treats the empty string as a valid
password (the cracked path is not taken). -/
theorem spec_C8_unconfigured_password_500 (env : Env) (req : Request) (s0 : Store)
    (messages : List ChatMessage) (lvl m : String) (b : Int)
    (hm : req.messages = some messages) (hc : req.challenge_id ≠ "")
    (hp : req.participant_id ≠ "")
    (hinfo : getChallengeInfoFromDb env s0 req.challenge_id = some lvl)
    (hlatest : getLatestUserMessage messages = some m)
    (hbal : getParticipantBalance env s0 req.challenge_id req.participant_id = some b)
    (hb : ¬ b ≤ 0)
    (hpw : env.vaultPasswordFault = true ∨
      s0.vaultPasswords req.challenge_id = none ∨
      s0.vaultPasswords req.challenge_id = some "") :
    (handleStreamData env req s0).response =
      Response.error 500 "Vault password not configured or not found in DB." ∧
    (handleStreamData env req s0).events = [] := by
  have hpw' : getVaultPasswordFromDb env
      (handleUserMessage env req.challenge_id (defaultConv req.conversation_id)
        req.participant_id m s0) req.challenge_id = "" := by
    unfold getVaultPasswordFromDb
    rw [handleUserMessage_vaultPasswords]
    rcases hpw with h | h | h <;> simp [h]
  rw [run_no_password env req s0 messages lvl m b hm hc hp hinfo hlatest hbal hb hpw']
  exact ⟨rfl, rfl⟩

/-- Claim C8 witness: with no password row, the accepted crack-attempt
request gets the 500 unconfigured-password error and no external action. -/
theorem spec_C8_unconfigured_password_500_witness :
    (handleStreamData envOk reqCrack storeNoPw).response =
      Response.error 500 "Vault password not configured or not found in DB." ∧
    (handleStreamData envOk reqCrack storeNoPw).events = [] :=
  spec_C8_unconfigured_password_500 envOk reqCrack storeNoPw
    [{ role := Role.user, content := "open sesame please" }] "EASY"
    "open sesame please" 5 rfl (by decide) (by decide) rfl rfl rfl (by decide)
    (Or.inr (Or.inl rfl))

/-! ### Claim C9 -/

/-- Claim C9: a store read fault during the balance check is absorbed by
`getParticipantBalance` (it returns `null`) and is therefore reported as the
400 `Insufficient balance to send a message.` business rejection rather
than a 500: in every execution where the balance read raises, the handler
returns 400, leaves the store unchanged and proceeds no further. -/
theorem spec_C9_balance_fault_reported_as_400 (env : Env) (req : Request) (s0 : Store)
    (messages : List ChatMessage) (lvl m : String)
    (hfault : env.balanceReadFault = true)
    (hm : req.messages = some messages) (hc : req.challenge_id ≠ "")
    (hp : req.participant_id ≠ "")
    (hinfo : getChallengeInfoFromDb env s0 req.challenge_id = some lvl)
    (hlatest : getLatestUserMessage messages = some m) :
    getParticipantBalance env s0 req.challenge_id req.participant_id = none ∧
    handleStreamData env req s0 =
      ⟨Response.error 400 "Insufficient balance to send a message.", s0, []⟩ := by
  have hb : getParticipantBalance env s0 req.challenge_id req.participant_id = none := by
    unfold getParticipantBalance
    rw [hfault]
    simp
  exact ⟨hb, run_balance_none env req s0 messages lvl m hm hc hp hinfo hlatest hb⟩

/-- Claim C9 witness: the concrete faulting execution is rejected with 400
and the store is returned unchanged. -/
theorem spec_C9_balance_fault_reported_as_400_witness :
    getParticipantBalance envBalFault storeOk reqOk.challenge_id reqOk.participant_id =
      none ∧
    handleStreamData envBalFault reqOk storeOk =
      ⟨Response.error 400 "Insufficient balance to send a message.", storeOk, []⟩ :=
  spec_C9_balance_fault_reported_as_400 envBalFault reqOk storeOk
    [{ role := Role.user, content := "hello" }] "EASY" "hello"
    rfl rfl (by decide) (by decide) rfl rfl

/-! ### Claim C10 -/

/-- Claim C10: the stream framing `writeTransformedChunk` is not injective:
the distinct fragments `"\n"` (a newline) and `"\\n"` (backslash then `n`)
produce the identical framed line, because backslashes are not themselves
escaped; a client cannot always reconstruct the original fragment. -/
theorem spec_C10_framing_not_injective :
    writeTransformedChunk "\n" = writeTransformedChunk "\\n" ∧ "\n" ≠ "\\n" := by
  exact ⟨rfl, by decide⟩

/-! ### Claim C2 -/

/-- Claim C2 counterexample: an accepted request with configured password
`sesame` whose latest user message does not contain it, on a challenge whose
level is the unrecognized `MEDIUM`, invokes no agent at all (empty event
trace) and fails with 400 — refuting "if the latest user message does not
contain the password, an agent is invoked". -/
theorem spec_C2_counterexample :
    strContains "hello" "sesame" = false ∧
    (handleStreamData envOk reqOk storeMedium).events = [] ∧
    (handleStreamData envOk reqOk storeMedium).response =
      Response.error 400 "Unknown challenge level: MEDIUM" := by
  exact ⟨by decide, rfl, rfl⟩

/-- Claim C2 (amended): for every accepted request with a configured
non-empty vault password: if the latest user message contains the password
as a case-sensitive substring and the notification step does not throw
(webhook unset, conversation id absent, or the post succeeding), the
response is the single fixed celebratory message — which embeds the
reward-video reference — streamed as its one framed fragment, that exact
text is persisted as an assistant message, and no agent call occurs; if the
message does not contain the password and the level is `EASY` or `HARD`, an
agent is invoked; with an unrecognized level no agent is invoked and a 400
error is returned. -/
theorem spec_C2_crack_check (env : Env) (req : Request) (s0 : Store)
    (messages : List ChatMessage) (lvl m pw : String) (b : Int)
    (hm : req.messages = some messages) (hc : req.challenge_id ≠ "")
    (hp : req.participant_id ≠ "")
    (hinfo : getChallengeInfoFromDb env s0 req.challenge_id = some lvl)
    (hlatest : getLatestUserMessage messages = some m)
    (hbal : getParticipantBalance env s0 req.challenge_id req.participant_id = some b)
    (hb : ¬ b ≤ 0)
    (hpw : getVaultPasswordFromDb env
      (handleUserMessage env req.challenge_id (defaultConv req.conversation_id)
        req.participant_id m s0) req.challenge_id = pw)
    (hpwne : pw ≠ "") :
    strContains finalRewardMsg VAULT_CRACKED_VIDEO_COMPONENT = true ∧
    (strContains m pw = true → env.slackWebhookUrl ≠ "" → req.conversation_id ≠ "" →
      env.slackFails = false →
      handleStreamData env req s0 =
        ⟨Response.streamed,
          saveMessageToDb env (defaultConv req.conversation_id) req.challenge_id
            req.participant_id Role.assistant finalRewardMsg
            (handleUserMessage env req.challenge_id (defaultConv req.conversation_id)
              req.participant_id m s0),
          [Event.slackNotify (slackCrackMsg req.conversation_id),
            Event.streamWrite (writeTransformedChunk finalRewardMsg)]⟩) ∧
    (strContains m pw = true → ¬ (env.slackWebhookUrl ≠ "" ∧ req.conversation_id ≠ "") →
      handleStreamData env req s0 =
        ⟨Response.streamed,
          saveMessageToDb env (defaultConv req.conversation_id) req.challenge_id
            req.participant_id Role.assistant finalRewardMsg
            (handleUserMessage env req.challenge_id (defaultConv req.conversation_id)
              req.participant_id m s0),
          [Event.streamWrite (writeTransformedChunk finalRewardMsg)]⟩) ∧
    (strContains m pw = false → lvl = "EASY" ∨ lvl = "HARD" →
      Event.agent1Call ∈ (handleStreamData env req s0).events) ∧
    (strContains m pw = false → lvl ≠ "EASY" → lvl ≠ "HARD" →
      handleStreamData env req s0 =
        ⟨Response.error 400 ("Unknown challenge level: " ++ lvl),
          handleUserMessage env req.challenge_id (defaultConv req.conversation_id)
            req.participant_id m s0, []⟩) := by
  refine ⟨by decide, ?_, ?_, ?_, ?_⟩
  · intro hcon hw hcv hfail
    exact run_crack_slack_ok env req s0 messages lvl m pw b hm hc hp hinfo hlatest
      hbal hb hpw hpwne hcon hw hcv hfail
  · intro hcon hskip
    exact run_crack_slack_skipped env req s0 messages lvl m pw b hm hc hp hinfo hlatest
      hbal hb hpw hpwne hcon hskip
  · intro hcon hlv
    rcases hlv with rfl | rfl
    · rw [run_easy env req s0 messages m pw b hm hc hp hinfo hlatest hbal hb hpw
        hpwne hcon]
      simp
    · rw [run_hard env req s0 messages m pw b hm hc hp hinfo hlatest hbal hb hpw
        hpwne hcon]
      simp
  · intro hcon hlvE hlvH
    exact run_unknown_level env req s0 messages lvl m pw b hm hc hp hinfo hlatest
      hbal hb hpw hpwne hcon hlvE hlvH

/-- Claim C2 witness: the concrete cracked run (webhook unset, so the
notification is skipped) streams exactly the framed celebratory message and
persists it; the concrete non-cracked EASY run invokes the primary agent. -/
theorem spec_C2_crack_check_witness :
    handleStreamData envOk reqCrack storeOk =
      ⟨Response.streamed,
        saveMessageToDb envOk "cv1" "ch1" "pt1" Role.assistant finalRewardMsg
          (handleUserMessage envOk "ch1" "cv1" "pt1" "open sesame please" storeOk),
        [Event.streamWrite (writeTransformedChunk finalRewardMsg)]⟩ ∧
    Event.agent1Call ∈ (handleStreamData envOk reqOk storeOk).events := by
  constructor
  · exact (spec_C2_crack_check envOk reqCrack storeOk
      [{ role := Role.user, content := "open sesame please" }] "EASY"
      "open sesame please" "sesame" 5 rfl (by decide) (by decide) rfl rfl rfl
      (by decide) rfl (by decide)).2.2.1 (by decide) (by decide)
  · exact (spec_C2_crack_check envOk reqOk storeOk
      [{ role := Role.user, content := "hello" }] "EASY" "hello" "sesame" 5
      rfl (by decide) (by decide) rfl rfl rfl (by decide) rfl
      (by decide)).2.2.2.1 (by decide) (Or.inl rfl)

/-! ### Claim C3 -/

/-- Claim C3 counterexample: with a webhook configured and the Slack post
failing, the cracked run aborts with a 500 — the celebratory message is
neither streamed (no `streamWrite` event) nor persisted (no assistant row),
refuting "a notification failure is only logged and does not prevent the
celebratory response". -/
theorem spec_C3_counterexample :
    (handleStreamData envSlackFail reqCrack storeOk).response =
      Response.error 500 "Slack notification error: boom" ∧
    (handleStreamData envSlackFail reqCrack storeOk).events =
      [Event.slackNotify "The vault has been cracked in conversation cv1!"] ∧
    (handleStreamData envSlackFail reqCrack storeOk).store.messages.filter
      (fun r => r.role == Role.assistant) = [] := by
  exact ⟨rfl, rfl, rfl⟩

/-- Claim C3 (amended): on the cracked path the notification is attempted
only when both a webhook URL and a conversation id are present, and it is
not best-effort: if the post throws, the request aborts with a 500, with
the celebratory message neither persisted nor streamed; only when the
notification is skipped or succeeds is the celebratory message persisted as
an assistant message and streamed before the stream ends. -/
theorem spec_C3_notification_not_best_effort (env : Env) (req : Request) (s0 : Store)
    (messages : List ChatMessage) (lvl m pw : String) (b : Int)
    (hm : req.messages = some messages) (hc : req.challenge_id ≠ "")
    (hp : req.participant_id ≠ "")
    (hinfo : getChallengeInfoFromDb env s0 req.challenge_id = some lvl)
    (hlatest : getLatestUserMessage messages = some m)
    (hbal : getParticipantBalance env s0 req.challenge_id req.participant_id = some b)
    (hb : ¬ b ≤ 0)
    (hpw : getVaultPasswordFromDb env
      (handleUserMessage env req.challenge_id (defaultConv req.conversation_id)
        req.participant_id m s0) req.challenge_id = pw)
    (hpwne : pw ≠ "")
    (hcon : strContains m pw = true) :
    (env.slackWebhookUrl ≠ "" → req.conversation_id ≠ "" → env.slackFails = true →
      handleStreamData env req s0 =
        ⟨Response.error 500 ("Slack notification error: " ++ env.slackErrMsg),
          handleUserMessage env req.challenge_id (defaultConv req.conversation_id)
            req.participant_id m s0,
          [Event.slackNotify (slackCrackMsg req.conversation_id)]⟩) ∧
    (env.slackWebhookUrl ≠ "" → req.conversation_id ≠ "" → env.slackFails = false →
      handleStreamData env req s0 =
        ⟨Response.streamed,
          saveMessageToDb env (defaultConv req.conversation_id) req.challenge_id
            req.participant_id Role.assistant finalRewardMsg
            (handleUserMessage env req.challenge_id (defaultConv req.conversation_id)
              req.participant_id m s0),
          [Event.slackNotify (slackCrackMsg req.conversation_id),
            Event.streamWrite (writeTransformedChunk finalRewardMsg)]⟩) ∧
    (¬ (env.slackWebhookUrl ≠ "" ∧ req.conversation_id ≠ "") →
      handleStreamData env req s0 =
        ⟨Response.streamed,
          saveMessageToDb env (defaultConv req.conversation_id) req.challenge_id
            req.participant_id Role.assistant finalRewardMsg
            (handleUserMessage env req.challenge_id (defaultConv req.conversation_id)
              req.participant_id m s0),
          [Event.streamWrite (writeTransformedChunk finalRewardMsg)]⟩) := by
  refine ⟨?_, ?_, ?_⟩
  · intro hw hcv hfail
    exact run_crack_slack_fail env req s0 messages lvl m pw b hm hc hp hinfo hlatest
      hbal hb hpw hpwne hcon hw hcv hfail
  · intro hw hcv hfail
    exact run_crack_slack_ok env req s0 messages lvl m pw b hm hc hp hinfo hlatest
      hbal hb hpw hpwne hcon hw hcv hfail
  · intro hskip
    exact run_crack_slack_skipped env req s0 messages lvl m pw b hm hc hp hinfo
      hlatest hbal hb hpw hpwne hcon hskip

/-- Claim C3 witness: with a webhook configured and the post succeeding,
the cracked run notifies, persists the celebratory message and streams its
one framed fragment. -/
theorem spec_C3_notification_not_best_effort_witness :
    handleStreamData envSlackOk reqCrack storeOk =
      ⟨Response.streamed,
        saveMessageToDb envSlackOk "cv1" "ch1" "pt1" Role.assistant finalRewardMsg
          (handleUserMessage envSlackOk "ch1" "cv1" "pt1" "open sesame please" storeOk),
        [Event.slackNotify (slackCrackMsg "cv1"),
          Event.streamWrite (writeTransformedChunk finalRewardMsg)]⟩ :=
  (spec_C3_notification_not_best_effort envSlackOk reqCrack storeOk
    [{ role := Role.user, content := "open sesame please" }] "EASY"
    "open sesame please" "sesame" 5 rfl (by decide) (by decide) rfl rfl rfl
    (by decide) rfl (by decide) (by decide)).2.1 (by decide) (by decide) rfl

/-! ### Claim C4 -/

/-- Claim C4: for every accepted, non-cracked request: on level `EASY` the
run is exactly one generation call followed by exactly one framed output
fragment, whose text is persisted as the assistant message; on level `HARD`
the primary agent is invoked to completion first, then the secondary agent,
the primary's output is never written to the caller (the write trace is
exactly the framed secondary fragments, in arrival order), and the
persisted assistant message is the concatenation of all secondary-agent
fragments in arrival order. -/
theorem spec_C4_generation_flows (env : Env) (req : Request) (s0 : Store)
    (messages : List ChatMessage) (m pw : String) (b : Int)
    (hm : req.messages = some messages) (hc : req.challenge_id ≠ "")
    (hp : req.participant_id ≠ "")
    (hlatest : getLatestUserMessage messages = some m)
    (hbal : getParticipantBalance env s0 req.challenge_id req.participant_id = some b)
    (hb : ¬ b ≤ 0)
    (hpw : getVaultPasswordFromDb env
      (handleUserMessage env req.challenge_id (defaultConv req.conversation_id)
        req.participant_id m s0) req.challenge_id = pw)
    (hpwne : pw ≠ "")
    (hcon : strContains m pw = false) :
    (getChallengeInfoFromDb env s0 req.challenge_id = some "EASY" →
      handleStreamData env req s0 =
        ⟨Response.streamed,
          saveMessageToDb env (defaultConv req.conversation_id) req.challenge_id
            req.participant_id Role.assistant (fetchAgent1Text env)
            (handleUserMessage env req.challenge_id (defaultConv req.conversation_id)
              req.participant_id m s0),
          [Event.agent1Call,
            Event.streamWrite (writeTransformedChunk (fetchAgent1Text env))]⟩) ∧
    (getChallengeInfoFromDb env s0 req.challenge_id = some "HARD" →
      handleStreamData env req s0 =
        ⟨Response.streamed,
          saveMessageToDb env (defaultConv req.conversation_id) req.challenge_id
            req.participant_id Role.assistant (String.join env.agent2Frags)
            (handleUserMessage env req.challenge_id (defaultConv req.conversation_id)
              req.participant_id m s0),
          [Event.agent1Call, Event.agent2Call] ++
            env.agent2Frags.map (fun f => Event.streamWrite (writeTransformedChunk f))⟩) := by
  constructor
  · intro hinfo
    exact run_easy env req s0 messages m pw b hm hc hp hinfo hlatest hbal hb hpw
      hpwne hcon
  · intro hinfo
    exact run_hard env req s0 messages m pw b hm hc hp hinfo hlatest hbal hb hpw
      hpwne hcon

/-- Claim C4 witness: the concrete EASY run issues one generation call and
one framed fragment; the concrete HARD run issues the two staged calls and
persists the concatenation of the two secondary fragments. -/
theorem spec_C4_generation_flows_witness :
    handleStreamData envOk reqOk storeOk =
      ⟨Response.streamed,
        saveMessageToDb envOk "cv1" "ch1" "pt1" Role.assistant (fetchAgent1Text envOk)
          (handleUserMessage envOk "ch1" "cv1" "pt1" "hello" storeOk),
        [Event.agent1Call,
          Event.streamWrite (writeTransformedChunk (fetchAgent1Text envOk))]⟩ ∧
    handleStreamData envOk reqOk storeHard =
      ⟨Response.streamed,
        saveMessageToDb envOk "cv1" "ch1" "pt1" Role.assistant
          (String.join ["Well", " guarded"])
          (handleUserMessage envOk "ch1" "cv1" "pt1" "hello" storeHard),
        [Event.agent1Call, Event.agent2Call,
          Event.streamWrite (writeTransformedChunk "Well"),
          Event.streamWrite (writeTransformedChunk " guarded")]⟩ := by
  constructor
  · exact (spec_C4_generation_flows envOk reqOk storeOk
      [{ role := Role.user, content := "hello" }] "hello" "sesame" 5
      rfl (by decide) (by decide) rfl rfl (by decide) rfl (by decide)
      (by decide)).1 rfl
  · exact (spec_C4_generation_flows envOk reqOk storeHard
      [{ role := Role.user, content := "hello" }] "hello" "sesame" 5
      rfl (by decide) (by decide) rfl rfl (by decide) rfl (by decide)
      (by decide)).2 rfl

/-! ### Claim C6 -/

/-- `envOk` with the first-message lookup throwing. -/
def envQueryFault : Env :=
  { envOk with firstMsgQueryFault := true }

/-- Claim C6: the first-message check returns true iff no message rows
exist for the conversation id, and returns false on lookup failure;
consequently, under sequential delivery with no store faults, processing
the first user message of a conversation increments the challenge
participant count by exactly one, and processing any subsequent message of
the same conversation leaves it unchanged. -/
theorem spec_C6_first_message_gate (env : Env) :
    (∀ (s : Store) (conv : String), env.firstMsgQueryFault = false →
      (isFirstParticipantMessageInConversation env s conv = true ↔
        (s.messages.filter (fun r => r.conversation_id == conv)).length = 0)) ∧
    (∀ (s : Store) (conv : String), env.firstMsgQueryFault = true →
      isFirstParticipantMessageInConversation env s conv = false) ∧
    (∀ (s0 : Store) (cid conv pid m1 m2 : String),
      env.firstMsgQueryFault = false → env.saveMessageFault = false →
      env.incParticipantsFault = false → conv ≠ "" →
      (s0.messages.filter (fun r => r.conversation_id == conv)).length = 0 →
      (handleUserMessage env cid conv pid m1 s0).participantsCount cid =
        s0.participantsCount cid + 1 ∧
      (handleUserMessage env cid conv pid m2
          (handleUserMessage env cid conv pid m1 s0)).participantsCount cid =
        (handleUserMessage env cid conv pid m1 s0).participantsCount cid) := by
  refine ⟨?_, ?_, ?_⟩
  · intro s conv hq
    unfold isFirstParticipantMessageInConversation
    rw [hq]
    simp only [Bool.false_eq_true, if_false, decide_eq_true_eq]
    omega
  · intro s conv hq
    unfold isFirstParticipantMessageInConversation
    rw [hq]
    simp
  · intro s0 cid conv pid m1 m2 hq hsave hincp hconv hflt
    have hconvd : defaultConv conv = conv := by
      unfold defaultConv
      rw [if_neg hconv]
    have hfirst1 : isFirstParticipantMessageInConversation env s0 conv = true := by
      unfold isFirstParticipantMessageInConversation
      rw [hq]
      simp only [Bool.false_eq_true, if_false, decide_eq_true_eq]
      omega
    have hmsgs := handleUserMessage_messages env cid conv pid m1 s0 hsave
    have hfirst2 : isFirstParticipantMessageInConversation env
        (handleUserMessage env cid conv pid m1 s0) conv = false := by
      unfold isFirstParticipantMessageInConversation
      rw [hq]
      simp only [Bool.false_eq_true, if_false, hmsgs, List.filter_append,
        List.length_append, hconvd, List.filter_cons, beq_self_eq_true, if_true,
        List.filter_nil, List.length_cons, List.length_nil,
        decide_eq_false_iff_not]
      omega
    exact ⟨handleUserMessage_participantsCount_first env cid conv pid m1 s0 hfirst1 hincp,
      handleUserMessage_participantsCount_rest env cid conv pid m2
        (handleUserMessage env cid conv pid m1 s0) hfirst2⟩

/-- Claim C6 witness: on the empty store the check reports a first message,
a faulting lookup reports false, and the concrete two-message sequential
run bumps the participant count exactly once. -/
theorem spec_C6_first_message_gate_witness :
    (isFirstParticipantMessageInConversation envOk storeOk "cv1" = true ↔
      (storeOk.messages.filter (fun r => r.conversation_id == "cv1")).length = 0) ∧
    isFirstParticipantMessageInConversation envQueryFault storeOk "cv1" = false ∧
    ((handleUserMessage envOk "ch1" "cv1" "pt1" "hi" storeOk).participantsCount "ch1" =
      storeOk.participantsCount "ch1" + 1 ∧
    (handleUserMessage envOk "ch1" "cv1" "pt1" "again"
        (handleUserMessage envOk "ch1" "cv1" "pt1" "hi" storeOk)).participantsCount "ch1" =
      (handleUserMessage envOk "ch1" "cv1" "pt1" "hi" storeOk).participantsCount "ch1") :=
  ⟨(spec_C6_first_message_gate envOk).1 storeOk "cv1" rfl,
    (spec_C6_first_message_gate envQueryFault).2.1 storeOk "cv1" rfl,
    (spec_C6_first_message_gate envOk).2.2 storeOk "ch1" "cv1" "pt1" "hi" "again"
      rfl rfl rfl (by decide) rfl⟩

/-! ### Claim C5 -/

/-- A full three-entry cache for the witness; `b` is the least recently
used. -/
def cacheW : ContractCache :=
  [("a", { contract := { address := "0xA", abi := "[]" }, lastUsed := 5 }),
   ("b", { contract := { address := "0xB", abi := "[]" }, lastUsed := 2 }),
   ("c", { contract := { address := "0xC", abi := "[]" }, lastUsed := 9 })]

/-- A metadata table holding a row for challenge `d`, with every address
accepted as valid and the clock at 100. -/
def benvW : BlockEnv :=
  { contractsTable := fun c =>
      if c = "d" then some { contract_address := some "0xD", contract_abi := some "[]" }
      else none
    isValidAddress := fun _ => true
    now := 100 }

/-- Claim C5: the contract-binding cache never exceeds 3 entries on any
reachable state; a get for a cached challenge id only refreshes that
entry's last-used timestamp (same keys, same length, other entries
untouched) and evicts nothing; a get for an uncached id when the cache
holds 3 entries evicts exactly one entry — one with the minimal last-used
timestamp — before appending the new binding, leaving the cache at 3. -/
theorem spec_C5_contract_cache_lru :
    (∀ cache : ContractCache, CacheReachable cache → cache.length ≤ MAX_CONTRACTS) ∧
    (∀ (benv : BlockEnv) (cache : ContractCache) (cid : String)
      (info : CachedContractInfo),
      lookupEntry cache cid = some info →
      getContractForChallenge benv cache cid =
        Except.ok (info.contract, updateLastUsed cache cid benv.now) ∧
      (updateLastUsed cache cid benv.now).map Prod.fst = cache.map Prod.fst ∧
      (updateLastUsed cache cid benv.now).length = cache.length ∧
      lookupEntry (updateLastUsed cache cid benv.now) cid =
        some { info with lastUsed := benv.now } ∧
      ∀ k, k ≠ cid →
        lookupEntry (updateLastUsed cache cid benv.now) k = lookupEntry cache k) ∧
    (∀ (benv : BlockEnv) (cache : ContractCache) (cid : String)
      (meta : ContractMeta) (addr abi : String),
      CacheWF cache → cache.length = MAX_CONTRACTS → cid ≠ "" →
      lookupEntry cache cid = none →
      benv.contractsTable cid = some meta →
      meta.contract_address = some addr →
      benv.isValidAddress addr = true →
      meta.contract_abi = some abi → abi ≠ "" →
      ∃ k t, findOldest cache = some (k, t) ∧
        k ∈ cache.map Prod.fst ∧
        (∀ e ∈ cache, t ≤ e.2.lastUsed) ∧
        getContractForChallenge benv cache cid =
          Except.ok ({ address := addr, abi := abi },
            cache.filter (fun e : String × CachedContractInfo => e.1 != k) ++
              [(cid, { contract := { address := addr, abi := abi },
                       lastUsed := benv.now })]) ∧
        (cache.filter (fun e : String × CachedContractInfo => e.1 != k) ++
          ([(cid, { contract := { address := addr, abi := abi },
                    lastUsed := benv.now })] : ContractCache)).length =
          MAX_CONTRACTS) := by
  refine ⟨?_, ?_, ?_⟩
  · intro cache h
    exact (cacheReachable_WF cache h).2.2
  · intro benv cache cid info h
    exact ⟨getContract_hit benv cache cid info h,
      updateLastUsed_map_fst cache cid benv.now,
      updateLastUsed_length cache cid benv.now,
      lookupEntry_updateLastUsed_self cache cid benv.now info h,
      fun k hk => lookupEntry_updateLastUsed_other cache cid benv.now k hk⟩
  · intro benv cache cid meta addr abi hwf hlen hcid hl hmeta haddr hvalid habi habine
    obtain ⟨hnd, hne, -⟩ := hwf
    have hnonnil : cache ≠ [] := by
      intro h0
      rw [h0] at hlen
      simp [MAX_CONTRACTS] at hlen
    obtain ⟨e, rest, hc⟩ := List.exists_cons_of_ne_nil hnonnil
    obtain ⟨k, t, hfo⟩ : ∃ k t, findOldest cache = some (k, t) := by
      rw [hc]
      exact findOldest_cons e rest
    obtain ⟨⟨info, hmem, -⟩, hmin⟩ := findOldest_spec cache k t hfo
    have hkmem : k ∈ cache.map Prod.fst := List.mem_map.mpr ⟨(k, info), hmem, rfl⟩
    have hkne : k ≠ "" := fun hk0 => hne (hk0 ▸ hkmem)
    have hcap : MAX_CONTRACTS ≤ cache.length := le_of_eq hlen.symm
    refine ⟨k, t, hfo, hkmem, hmin, ?_, ?_⟩
    · rw [getContract_miss_full benv cache cid meta addr abi hl hmeta haddr hvalid
        habi habine hcap, evictOldest_eq_filter cache k t hfo hkne]
    · rw [List.length_append]
      have hfl := filter_ne_length cache k hnd hkmem
      have hmc : MAX_CONTRACTS = 3 := rfl
      simp only [List.length_cons, List.length_nil]
      omega

/-- Claim C5 witness: the empty cache respects the bound; a hit on `b`
refreshes it in place; a miss on `d` with the cache full evicts exactly the
least-recently-used entry (`b`, timestamp 2) and keeps the size at 3. -/
theorem spec_C5_contract_cache_lru_witness :
    ([] : ContractCache).length ≤ MAX_CONTRACTS ∧
    getContractForChallenge benvW cacheW "b" =
      Except.ok ({ address := "0xB", abi := "[]" }, updateLastUsed cacheW "b" 100) ∧
    (∃ k t, findOldest cacheW = some (k, t) ∧
      k ∈ cacheW.map Prod.fst ∧
      (∀ e ∈ cacheW, t ≤ e.2.lastUsed) ∧
      getContractForChallenge benvW cacheW "d" =
        Except.ok ({ address := "0xD", abi := "[]" },
          cacheW.filter (fun e : String × CachedContractInfo => e.1 != k) ++
            [("d", { contract := { address := "0xD", abi := "[]" },
                     lastUsed := 100 })]) ∧
      (cacheW.filter (fun e : String × CachedContractInfo => e.1 != k) ++
        ([("d", { contract := { address := "0xD", abi := "[]" },
                  lastUsed := 100 })] : ContractCache)).length = MAX_CONTRACTS) := by
  refine ⟨spec_C5_contract_cache_lru.1 [] CacheReachable.init, ?_, ?_⟩
  · exact (spec_C5_contract_cache_lru.2.1 benvW cacheW "b"
      { contract := { address := "0xB", abi := "[]" }, lastUsed := 2 } rfl).1
  · exact spec_C5_contract_cache_lru.2.2 benvW cacheW "d"
      { contract_address := some "0xD", contract_abi := some "[]" } "0xD" "[]"
      ⟨by decide, by decide, by decide⟩ rfl (by decide) rfl rfl rfl rfl rfl (by decide)

end VaultKeeper
